import Mathlib

/-!
Verification development for the Web-Crawler repository.

The repository contains three Python sources: `main.py` (an early prototype),
`version2.py` (the `DomainCrawler` / `ParallelCrawler` pair built on aiohttp +
Selenium) and `advance.py` (the Playwright-based `EcommerceCrawler`).  This file
gives a shallow embedding of the parts of those sources that the specification
claims talk about: the page classifier (`is_product_page`), the per-domain crawl
loops (`DomainCrawler.crawl_url` and `EcommerceCrawler.crawl_domain`), the
infinite-scroll controller (`handle_infinite_scroll`), the retry / CAPTCHA gate
(`crawl_with_retry`, `handle_amazon_captcha`) and the result persistence
(`save_results`).

Modelling conventions:
* Strings are Lean `String`s; Python `str.lower` is modelled for ASCII by
  `lowerStr`.
* The regular expressions appearing in the sources are all either literal
  substrings, literals with one optional character (`[s]?`, `[-]?`), or an
  alternation of literals; each is translated to the equivalent substring test,
  documented next to the translated table.  The fast-path Amazon patterns
  (`/dp/[A-Z0-9]{10}` etc.) are implemented as genuine character-class matchers.
* External effects (HTTP fetches, DOM evaluation, regex oracles over unknown
  page content) are parameters of the models; the control flow, state updates
  and arithmetic are translated from the source.
* `urllib.parse.urlparse` / `urljoin` are modelled by `netloc`, `urlPath`,
  `urljoin` below, which agree with the Python functions on the ordinary
  absolute http(s) URLs exercised here.
* The asyncio code is single-threaded and cooperative; `asyncio.gather` of the
  recursive `crawl_url` tasks is modelled by running the gathered tasks in
  order.  Unbounded recursion/loops are given explicit fuel.
-/

namespace WebCrawler

/-- ASCII lowercase of one character, as Python `str.lower` acts on ASCII. -/
def lowerChar (c : Char) : Char :=
  if 65 ≤ c.toNat ∧ c.toNat ≤ 90 then Char.ofNat (c.toNat + 32) else c

/-- ASCII lowercase of a string (Python `str.lower` on the ASCII URLs used here). -/
def lowerStr (s : String) : String := ⟨s.data.map lowerChar⟩

/-- Does the first list occur at the head of the second? -/
def leadsList : List Char → List Char → Bool
  | [], _ => true
  | _ :: _, [] => false
  | a :: as, b :: bs => a == b && leadsList as bs

/-- Does `sub` occur somewhere inside `l`? -/
def occursIn (sub : List Char) : List Char → Bool
  | [] => leadsList sub []
  | c :: rest => leadsList sub (c :: rest) || occursIn sub rest

/-- Python `sub in s` (substring containment). -/
def strHas (s sub : String) : Bool := occursIn sub.data s.data

/-- Python `s.startswith(p)`. -/
def strStarts (s p : String) : Bool := leadsList p.data s.data

/-- Split a character list at the first occurrence of `sep`, dropping `sep`. -/
def splitFirst (sep : List Char) : List Char → Option (List Char × List Char)
  | [] => none
  | c :: rest =>
    if leadsList sep (c :: rest) then some ([], (c :: rest).drop sep.length)
    else (splitFirst sep rest).map (fun p => (c :: p.1, p.2))

/-- Characters that end the host part of a URL. -/
def hostEnd (c : Char) : Bool := c == '/' || c == '?' || c == '#'

/-- Characters that end the path part of a URL. -/
def pathEnd (c : Char) : Bool := c == '?' || c == '#'

/-- `urllib.parse.urlparse(url).netloc` for the absolute URLs used here. -/
def netloc (url : String) : String :=
  match splitFirst "://".data url.data with
  | some (_, rest) => ⟨rest.takeWhile (fun c => !hostEnd c)⟩
  | none => ""

/-- `urllib.parse.urlparse(url).path` for the URLs used here. -/
def urlPath (url : String) : String :=
  match splitFirst "://".data url.data with
  | some (_, rest) => ⟨((rest.dropWhile (fun c => !hostEnd c)).takeWhile (fun c => !pathEnd c))⟩
  | none => ⟨url.data.takeWhile (fun c => !pathEnd c)⟩

/-- Python `s.split(c)` on character lists. -/
def splitAllOn (c : Char) : List Char → List (List Char)
  | [] => [[]]
  | a :: rest =>
    match splitAllOn c rest with
    | [] => [[]]
    | g :: gs => if a == c then [] :: g :: gs else (a :: g) :: gs

/-- `DomainCrawler.get_url_depth` (version2.py): the number of nonempty
segments of `urlparse(url).path`. -/
def get_url_depth (url : String) : Nat :=
  ((splitAllOn '/' (urlPath url).data).filter (fun seg => !seg.isEmpty)).length

/-- The directory part of a path: everything up to and including the last `/`
(`/` when the path has none), as `urljoin` uses it. -/
def dirPart (p : List Char) : List Char :=
  let r := p.reverse.dropWhile (fun c => c != '/')
  if r.isEmpty then ['/'] else r.reverse

/-- `urllib.parse.urljoin(base, rel)` for the URL shapes exercised here:
an absolute `rel` wins; a root-relative `rel` replaces the base path; any other
`rel` is resolved against the base path directory. -/
def urljoin (base rel : String) : String :=
  match splitFirst "://".data rel.data with
  | some _ => rel
  | none =>
    let scheme : List Char :=
      match splitFirst "://".data base.data with
      | some (sch, _) => sch
      | none => []
    if rel.data.head? == some '/' then
      ⟨scheme ++ "://".data ++ (netloc base).data ++ rel.data⟩
    else
      ⟨scheme ++ "://".data ++ (netloc base).data ++ dirPart (urlPath base).data ++ rel.data⟩

/-- Python `set.add` on a list-modelled set. -/
def insertStr (u : String) (l : List String) : List String :=
  if u ∈ l then l else u :: l

/-! ## PageClassifier: `EcommerceCrawler.is_product_page` (advance.py 563-618)

The pattern tables are copied from `EcommerceCrawler.__init__`, each regex kept
as its literal pattern string paired with its weight (Python floats `0.95`,
`0.8`, ... become the rationals `95/100`, `8/10`, ...).  Whether a given regex
matches the page URL / the page content is a property of the external page, so
the two `re.search` / `query_selector` oracles are parameters `urlMatch` /
`contentMatch` from pattern strings to `Bool`; the accumulation, branch
selection and threshold logic are translated from the source. -/

structure ProductUrlMatch where
  url : String
  confidence : ℚ
  matched_patterns : List String
deriving DecidableEq

/-- `self.url_patterns` (advance.py 50-65). -/
def url_patterns : List (String × ℚ) :=
  [("/product[s]?/[\\w-]+", 95/100),
   ("/p/[\\w-]+", 95/100),
   ("/dp/", 95/100),
   ("/item/[\\w-]+", 95/100),
   ("/-i-[\\w-]+", 95/100),
   ("/pd/[\\w-]+", 8/10),
   ("/[\\w-]+-p-[\\d]+", 8/10),
   ("/shop/[\\w-]+", 6/10),
   ("/[\\w-]+-[\\d]+\\.html", 6/10)]

/-- `self.content_patterns` (advance.py 68-77). -/
def content_patterns : List (String × ℚ) :=
  [("Add to (?:Cart|Basket)", 8/10),
   ("Product Description", 7/10),
   ("Buy Now", 7/10),
   ("Add to Wishlist", 6/10),
   ("Specifications", 6/10),
   ("Technical Details", 6/10),
   ("Price", 5/10),
   ("SKU|Item Code", 5/10)]

/-- `self.amazon_content_patterns` (advance.py 99-105). -/
def amazon_content_patterns : List (String × ℚ) :=
  [("#productTitle", 9/10),
   ("#priceblock_ourprice", 8/10),
   ("#buy-now-button", 8/10),
   ("#add-to-cart-button", 8/10),
   ("#breadcrumb-back-link", 7/10)]

/-- `self.amazon_product_patterns` (advance.py 107-111). -/
def amazon_product_patterns : List (String × ℚ) :=
  [("/dp/[A-Z0-9]{10}", 95/100),
   ("/gp/product/[A-Z0-9]{10}", 95/100),
   ("/[A-Za-z0-9-]+/dp/[A-Z0-9]{10}", 95/100)]

/-- One pass of the pattern-scoring loop of `is_product_page`: for each
pattern of the table that the oracle reports as matching, add its weight to the
running score, bump the match count and append the labelled pattern name. -/
def scoreTable (tag : String) (matchP : String → Bool) :
    List (String × ℚ) → ℚ × Nat × List String → ℚ × Nat × List String
  | [], acc => acc
  | pw :: rest, acc =>
    scoreTable tag matchP rest
      (if matchP pw.1 then (acc.1 + pw.2, acc.2.1 + 1, acc.2.2 ++ [tag ++ pw.1]) else acc)

/-- The accumulated (score, match count, matched names) of
`EcommerceCrawler.is_product_page`: the Amazon tables when `'amazon' in url`
(lowercased), else the generic URL and content tables. -/
def classifyScore (url : String) (urlMatch contentMatch : String → Bool) :
    ℚ × Nat × List String :=
  if strHas (lowerStr url) "amazon" then
    scoreTable "Amazon content pattern: " contentMatch amazon_content_patterns
      (scoreTable "Amazon URL pattern: " urlMatch amazon_product_patterns (0, 0, []))
  else
    scoreTable "Content pattern: " contentMatch content_patterns
      (scoreTable "URL pattern: " urlMatch url_patterns (0, 0, []))

/-- `EcommerceCrawler.is_product_page` (advance.py 563-618): if at least one
pattern matched, the confidence is the accumulated score divided by the match
count, and a `ProductUrlMatch` is returned only when that average is ≥ 0.5. -/
def is_product_page (url : String) (urlMatch contentMatch : String → Bool) :
    Option ProductUrlMatch :=
  let s := classifyScore url urlMatch contentMatch
  if 0 < s.2.1 then
    let conf : ℚ := s.1 / (s.2.1 : ℚ)
    if 1/2 ≤ conf then some ⟨url, conf, s.2.2⟩ else none
  else none

/-! ## FrontierManager / crawl loop: `DomainCrawler` (version2.py)

The regex tables of `DomainCrawler.__init__` consist of literals, literals with
one optional character (`[s]?`, `[-]?`) and escaped literals (`\?`), so
`re.search(p, url, re.IGNORECASE)` is equivalent to a lowercase substring test;
each regex is translated accordingly (an optional character yields the two
literal alternatives; note the missing comma in the Python amazon.in list
concatenates `/b/` and `/b\?node=` into the single pattern `/b//b?node=`). -/

/-- `self.product_patterns` (version2.py 46-51), as substring alternatives:
`/product[s]?/` matches iff `/product/` or `/products/` occurs. -/
def product_patterns : List String :=
  ["/product/", "/products/", "/item/", "/p/", "/dp/"]

/-- `DomainCrawler.is_product_url` (version2.py 126-127). -/
def is_product_url (url : String) : Bool :=
  product_patterns.any (fun p => strHas (lowerStr url) p)

/-- `self.exclude_patterns` (version2.py 54-91), translated regexes:
`/career[s]?` ↦ `/career`, `/contact[-]?us` ↦ both alternatives, etc. -/
def exclude_patterns : List String :=
  ["/career", "/contactus", "/contact-us", "/aboutus", "/about-us", "/login",
   "/cart", "/checkout", "/account", "/search", "/privacy", "/terms", "/refund",
   "/faq", "/help", "/payment", "/order", "/viewcart", "/wishlist", "/track",
   "/signin", "/signup", "/register", "/signout", "/unsubscribe", "/download",
   "/support", "/forum", "/blog", "/news", "/article", "/gallery", "/media",
   "/stories", "/press", "/events", "/offer", "/footer"]

/-- `self.domain_specific_exclude_patterns["amazon.in"]` (version2.py 95-107);
the third entry is the accidental concatenation of `/b/` and `/b\?node=`. -/
def amazon_in_exclude : List String :=
  ["/gp/", "/s?", "/b//b?node=", "/prime", "/customer-preferences", "/minitv",
   "/business", "/now", "/fresh", "/deliveries"]

/-- `self.domain_specific_exclude_patterns["flipkart.com"]` (version2.py 108-119). -/
def flipkart_com_exclude : List String :=
  ["/q/", "gift-card-store", "/returnpolicy", "/helpcentre", "/payments",
   "/paymentsecurity", "/shipping", "/terms", "/plus", "/wishlist"]

/-- The per-domain extension applied in `DomainCrawler.__init__` (122-124). -/
def domain_specific_exclude (domainName : String) : List String :=
  if domainName == "amazon.in" then amazon_in_exclude
  else if domainName == "flipkart.com" then flipkart_com_exclude
  else []

/-- `DomainCrawler.should_exclude_url` (version2.py 129-130), for the crawler
whose `domain_name` is `domainName`. -/
def should_exclude_url (domainName url : String) : Bool :=
  (exclude_patterns ++ domain_specific_exclude domainName).any
    (fun p => strHas (lowerStr url) p)

/-- The mutable per-domain state of `DomainCrawler`: `visited_urls` and
`product_urls` (Python sets, modelled as duplicate-free lists). -/
structure CrawlerState where
  visited : List String
  products : List String
deriving DecidableEq

/-- The link loop inside `DomainCrawler.crawl_url` (version2.py 207-217):
for each href, stop once `max_urls` product URLs are recorded; otherwise
resolve it against the crawler's domain, keep it only on the same netloc, record
it as a product if its shape matches, else schedule a recursive crawl task for
it when not yet visited.  Returns the updated state and the gathered tasks. -/
def processLinks (dom : String) (maxUrls : Nat) :
    List String → CrawlerState → CrawlerState × List String
  | [], s => (s, [])
  | link :: rest, s =>
    if maxUrls ≤ s.products.length then (s, [])
    else
      let absu := urljoin dom link
      if netloc absu == netloc dom then
        if is_product_url absu then
          processLinks dom maxUrls rest { s with products := insertStr absu s.products }
        else if absu ∈ s.visited then processLinks dom maxUrls rest s
        else
          let r := processLinks dom maxUrls rest s
          (r.1, absu :: r.2)
      else processLinks dom maxUrls rest s

/-- `DomainCrawler.crawl_url` (version2.py 179-231).  `fetch url` is the
environment: `some links` models a 200 response with the extracted hrefs
(either soup anchors or the Selenium dynamic-content links), `none` models a
non-200 status or a raised exception.  The `asyncio.gather` of the scheduled
tasks is run sequentially in order; `fuel` bounds the recursion depth. -/
def crawl_url (fetch : String → Option (List String)) (dom : String)
    (maxUrls maxDepth : Nat) : Nat → CrawlerState → String → CrawlerState
  | 0, s, _ => s
  | fuel + 1, s, url =>
    if url ∈ s.visited ∨ should_exclude_url (netloc dom) url = true then s
    else if maxUrls ≤ s.products.length then s
    else if maxDepth < get_url_depth url then s
    else
      let s1 : CrawlerState := { s with visited := insertStr url s.visited }
      match fetch url with
      | none => s1
      | some links =>
        let pr := processLinks dom maxUrls links s1
        pr.2.foldl (fun st u => crawl_url fetch dom maxUrls maxDepth fuel st u) pr.1

/-- `DomainCrawler.start` (version2.py 233-238): crawl from the domain root. -/
def domain_crawler_start (fetch : String → Option (List String)) (dom : String)
    (maxUrls maxDepth fuel : Nat) : CrawlerState :=
  crawl_url fetch dom maxUrls maxDepth fuel ⟨[], []⟩ dom

/-- URLs reachable from `root` in at most `n` link steps of the link map
`links` — the discovery depth (edge count from the entry point) of `u` is at
most `n` iff `u` is in this list. -/
def reachWithin (links : String → List String) (root : String) : Nat → List String
  | 0 => [root]
  | n + 1 =>
    let prev := reachWithin links root n
    prev ++ (prev.flatMap links).filter (fun u => u ∉ prev)

/-! ## DomainOrchestrator: `EcommerceCrawler.crawl_domain` (advance.py)

The Playwright page, its extracted hrefs and the classifier verdict on a
navigated page are the environment (`AdvEnv`); the loop over `urls_to_visit`,
the visited bookkeeping and the admission filtering are translated from the
source.  The Python `set.pop` order is unspecified; the model pops the head of
the list.  A ghost field `navigated` records every URL passed to
`crawl_with_retry` (i.e. every navigation attempt). -/

/-- The `amazon_excluded_patterns` list inside `should_crawl_url`
(advance.py 267-292); plain substrings tested on the lowercased URL. -/
def amazon_excluded_patterns : List String :=
  ["/minitv", "advertising.amazon", "brandservices.amazon", "accelerator.amazon",
   "aboutamazon", "/s/", "/b/", "/hz/wishlist", "/hz/", "/gp/help", "/gp/css",
   "/ap/signin", "/ap/", "/gp/cart", "/gp/registry", "/stores/", "/music/",
   "/prime", "/deals", "/gift-cards", "/gcx/", "/services", "/business",
   "/musical-instruments"]

/-- `self.excluded_paths` (advance.py 86-97), substrings tested on the path. -/
def excluded_paths : List String :=
  ["/stories", "/payments", "/about-us", "/contact-us", "/help", "/footer",
   "/policy", "/terms", "/careers", "/blog"]

/-- The alternation regex of `should_crawl_url` (advance.py 305), as its
literal alternatives. -/
def social_words : List String :=
  ["facebook", "twitter", "instagram", "linkedin", "youtube", "help", "support",
   "contact", "about", "privacy", "terms", "stories"]

/-- `EcommerceCrawler.should_crawl_url` (advance.py 257-312). -/
def should_crawl_url (url domain : String) : Bool :=
  if !(strHas (netloc url) domain) then false
  else if amazon_excluded_patterns.any (fun p => strHas (lowerStr url) p) then false
  else
    let path := lowerStr (urlPath url)
    if excluded_paths.any (fun p => strHas path p) then false
    else if social_words.any (fun w => strHas path w) then false
    else true

/-- The substring filter inside `extract_urls_from_page` (advance.py 427-433). -/
def extract_exclude : List String :=
  ["/signin", "/login", "/cart", "/help", "/gp/", "customer-preferences",
   "/language", "/currency"]

/-- `EcommerceCrawler.extract_urls_from_page` (advance.py 416-438) applied to
the raw anchor hrefs of a page: keep http(s) links, drop the excluded
substrings, and return a set (duplicate-free; keeps the last occurrence). -/
def dedupKeepLast : List String → List String
  | [] => []
  | a :: rest => if a ∈ rest then dedupKeepLast rest else a :: dedupKeepLast rest

def extract_urls_from_page (raw : List String) : List String :=
  dedupKeepLast ((raw.filter (fun l => strStarts l "http")).filter
    (fun l => !(extract_exclude.any (fun p => strHas (lowerStr l) p))))

/-- `EcommerceCrawler.is_same_domain` (advance.py 620-627). -/
def is_same_domain (url domain : String) : Bool := strHas (netloc url) domain

/-- Environment for the advanced crawler: whether `crawl_with_retry` succeeds
for a URL, the raw anchor hrefs visible on the fully materialized page
(initial extraction plus infinite scroll), and the classifier verdict
(`is_product_page`) for the page as navigated. -/
structure AdvEnv where
  fetchOk : String → Bool
  rawLinks : String → List String
  classify : String → Option ℚ

/-- The non-product branch of `EcommerceCrawler.crawl_page` (advance.py
357-369): extract URLs (with dynamic/scroll content absorbed into `rawLinks`)
and keep the same-domain ones. -/
def crawl_page_links (env : AdvEnv) (domain url : String) : List String :=
  (extract_urls_from_page (env.rawLinks url)).filter (fun u => is_same_domain u domain)

/-- `EcommerceCrawler.crawl_page` (advance.py 345-373): a classifier verdict of
confidence ≥ 0.7 records the page as a product and expands no links; otherwise
the same-domain extracted links are returned. -/
def crawl_page_adv (env : AdvEnv) (domain url : String) : Bool × List String :=
  match env.classify url with
  | some c => if 7/10 ≤ c then (true, []) else (false, crawl_page_links env domain url)
  | none => (false, crawl_page_links env domain url)

/-- The state of `EcommerceCrawler.crawl_domain`: `urls_to_visit`,
`visited_urls`, `self.product_urls[domain]`, plus the ghost list of all URLs
passed to `crawl_with_retry`. -/
structure AdvState where
  toVisit : List String
  visited : List String
  products : List String
  navigated : List String
deriving DecidableEq

/-- The `while urls_to_visit and len(visited_urls) < 50` loop of
`EcommerceCrawler.crawl_domain` (advance.py 174-187). -/
def crawl_domain_loop (env : AdvEnv) (domain : String) : Nat → AdvState → AdvState
  | 0, st => st
  | fuel + 1, st =>
    match st.toVisit with
    | [] => st
    | url :: rest =>
      if 50 ≤ st.visited.length then st
      else if url ∈ st.visited then
        crawl_domain_loop env domain fuel { st with toVisit := rest }
      else
        let st1 : AdvState :=
          { toVisit := rest, visited := insertStr url st.visited,
            products := st.products, navigated := insertStr url st.navigated }
        if env.fetchOk url then
          let pr := crawl_page_adv env domain url
          if pr.1 then
            crawl_domain_loop env domain fuel
              { st1 with products := insertStr url st1.products }
          else
            let admitted := pr.2.filter (fun u =>
              !(st1.visited.contains u) && !(st1.toVisit.contains u) &&
                should_crawl_url u domain)
            crawl_domain_loop env domain fuel { st1 with toVisit := st1.toVisit ++ admitted }
        else crawl_domain_loop env domain fuel st1

/-- `EcommerceCrawler.crawl_domain` (advance.py 125-196): visit the homepage,
seed `urls_to_visit` with every homepage link (no admission filtering), mark
the homepage visited, and run the crawl loop. -/
def crawl_domain_adv (env : AdvEnv) (domain : String) (fuel : Nat) : AdvState :=
  let homepage := "https://www." ++ domain
  if env.fetchOk homepage then
    crawl_domain_loop env domain fuel
      { toVisit := extract_urls_from_page (env.rawLinks homepage),
        visited := [homepage], products := [], navigated := [homepage] }
  else { toVisit := [], visited := [], products := [], navigated := [homepage] }

/-! ## DynamicContentController: `EcommerceCrawler.handle_infinite_scroll`
(advance.py 440-505)

The page is the environment: `height k` is `document.documentElement
.scrollHeight` observed after `k` scrolls, `links k` the extraction result
after `k` scrolls, `loadMoreFound` whether any load-more button matches, and
`clickHeight k` the height after clicking it.  Time is modelled in seconds:
each scroll waits 1 second (`wait_for_timeout(1000)`), a button click waits
`dynWait` seconds.  The function returns the accumulated URL set and the
number of scrolls performed. -/

structure ScrollEnv where
  height : Nat → Nat
  links : Nat → List String
  loadMoreFound : Bool
  clickHeight : Nat → Nat

/-- `len(new_urls - all_urls)` (advance.py 482). -/
def newLinksCount (urls new : List String) : Nat :=
  (new.filter (fun u => u ∉ urls)).length

/-- `all_urls.update(new_urls)` on list-modelled sets. -/
def unionLinks (urls new : List String) : List String :=
  urls ++ new.filter (fun u => u ∉ urls)

/-- The `while scroll_attempts < self.max_scroll_attempts` loop of
`handle_infinite_scroll`: arguments are fuel, scrolls performed so far `k`,
`prev_height`, `scroll_attempts`, elapsed seconds, and `all_urls`.  On a height
stall the load-more click is attempted and the loop breaks if the height still
does not change; otherwise one scroll is performed, `scroll_attempts` is
incremented, and a zero-gain extraction increments it again while a gainful
one resets it to zero. -/
def handle_infinite_scroll (env : ScrollEnv) (maxAttempts scrollTimeout dynWait : Nat) :
    Nat → Nat → Nat → Nat → Nat → List String → List String × Nat
  | 0, k, _, _, _, urls => (urls, k)
  | fuel + 1, k, prevH, attempts, elapsed, urls =>
    if maxAttempts ≤ attempts then (urls, k)
    else
      let currentH := env.height k
      let stalled := currentH == prevH
      let elapsed0 := if stalled && env.loadMoreFound then elapsed + dynWait else elapsed
      if stalled &&
          ((if env.loadMoreFound then env.clickHeight k else env.height k) == currentH) then
        (urls, k)
      else
        let cnt := newLinksCount urls (env.links (k + 1))
        let urls1 := unionLinks urls (env.links (k + 1))
        let elapsed1 := elapsed0 + 1
        if scrollTimeout < elapsed1 then (urls1, k + 1)
        else if cnt == 0 then
          handle_infinite_scroll env maxAttempts scrollTimeout dynWait fuel
            (k + 1) currentH (attempts + 2) elapsed1 urls1
        else
          handle_infinite_scroll env maxAttempts scrollTimeout dynWait fuel
            (k + 1) currentH 0 elapsed1 urls1

/-- `handle_infinite_scroll` as called: `prev_height = 0`, `scroll_attempts
= 0`, empty `all_urls`. -/
def run_infinite_scroll (env : ScrollEnv) (maxAttempts scrollTimeout dynWait fuel : Nat) :
    List String × Nat :=
  handle_infinite_scroll env maxAttempts scrollTimeout dynWait fuel 0 0 0 0 []

/-! ## AccessGate: `EcommerceCrawler.crawl_with_retry` (advance.py 220-255),
`is_captcha_present` (694-711), `handle_amazon_captcha` (713-740)

The fast-path Amazon product patterns are implemented as real matchers.
Outcomes of the external world at each attempt index (does `page.goto` raise,
which CAPTCHA probes find an element, does the resolution marker appear before
the ceiling) are the environment.  The result records success, the list of
backoff waits performed (in seconds, in order) and the `(key, url)` pairs
successfully inserted into `self.product_urls`. -/

/-- A character of the class `[A-Z0-9]`. -/
def asinChar (c : Char) : Bool :=
  (65 ≤ c.toNat && c.toNat ≤ 90) || (48 ≤ c.toNat && c.toNat ≤ 57)

/-- Do the next ten characters exist and lie in `[A-Z0-9]`? -/
def asinAfter (l : List Char) : Bool :=
  decide ((l.take 10).length = 10) && (l.take 10).all asinChar

/-- `re.search('/dp/[A-Z0-9]{10}', url)`: some position starts `/dp/` followed
by ten `[A-Z0-9]` characters. -/
def matchDpAt : List Char → Bool
  | [] => false
  | c :: rest =>
    (leadsList "/dp/".data (c :: rest) && asinAfter ((c :: rest).drop 4)) || matchDpAt rest

/-- `re.search('/gp/product/[A-Z0-9]{10}', url)`. -/
def matchGpAt : List Char → Bool
  | [] => false
  | c :: rest =>
    (leadsList "/gp/product/".data (c :: rest) && asinAfter ((c :: rest).drop 12)) ||
      matchGpAt rest

/-- A character of the class `[A-Za-z0-9-]`. -/
def segChar (c : Char) : Bool :=
  asinChar c || (97 ≤ c.toNat && c.toNat ≤ 122) || c == '-'

/-- After a `/`: a nonempty `[A-Za-z0-9-]+` segment followed by `/dp/` and an
ASIN (the class is disjoint from `/`, so greedy matching is exact). -/
def segThenDp (l : List Char) : Bool :=
  let seg := l.takeWhile segChar
  !seg.isEmpty && leadsList "/dp/".data (l.drop seg.length) &&
    asinAfter (l.drop (seg.length + 4))

/-- `re.search('/[A-Za-z0-9-]+/dp/[A-Z0-9]{10}', url)`. -/
def matchSegDpAt : List Char → Bool
  | [] => false
  | c :: rest => (c == '/' && segThenDp rest) || matchSegDpAt rest

/-- The fast-path test of `crawl_with_retry` (advance.py 224-226): `'amazon' in
url` and some `amazon_product_patterns` regex matches the raw URL. -/
def amazonFastPath (url : String) : Bool :=
  strHas url "amazon" &&
    (matchDpAt url.data || matchGpAt url.data || matchSegDpAt url.data)

/-- `EcommerceCrawler.is_captcha_present` (advance.py 694-711): do any of the
five selector probes find an element? -/
def is_captcha_present (probes : List Bool) : Bool := probes.any id

/-- `EcommerceCrawler.handle_amazon_captcha` (advance.py 713-740): walk the
CAPTCHA selectors; if one is found and the main-content marker appears before
the 300-second ceiling, return success; a `TimeoutError` (probe not found, or
resolution marker never appearing) falls to the next selector; after the loop
the function returns `True` (the `No CAPTCHA found` return). -/
def handle_amazon_captcha (found : List Bool) (resolved : Bool) : Bool :=
  match found with
  | [] => true
  | f :: rest =>
    if f then (if resolved then true else handle_amazon_captcha rest resolved)
    else handle_amazon_captcha rest resolved

/-- Per-attempt outcomes of the external world for `crawl_with_retry`. -/
structure FetchEnv where
  gotoOk : Nat → Bool
  captchaProbes : Nat → List Bool
  captchaFound : Nat → List Bool
  resolutionAppears : Nat → Bool

/-- Result of `crawl_with_retry`: the returned boolean, the backoff waits
performed (seconds, in order), and the `(dict key, url)` product insertions
that succeeded. -/
structure FetchResult where
  ok : Bool
  waits : List Nat
  recorded : List (String × String)
deriving DecidableEq

/-- `EcommerceCrawler.crawl_with_retry` (advance.py 220-255), with explicit
fuel (the recursion is bounded by `max_retries + 1` calls).  `domains` is the
key set of `self.product_urls` (the configured domain list, advance.py 40-41);
a fast-path hit inserts under `urlparse(url).netloc`, and a missing key raises
`KeyError`, which the `except` clause treats like any navigation failure:
sleep `retry_delay * (retry_count + 1)` and recurse while `retry_count <
max_retries`, else return failure. -/
def crawl_with_retry_fuel (domains : List String) (env : FetchEnv) (url : String)
    (maxRetries retryDelay : Nat) : Nat → Nat → FetchResult
  | 0, _ => ⟨false, [], []⟩
  | fuel + 1, rc =>
    let retryOr : FetchResult :=
      if rc < maxRetries then
        let r := crawl_with_retry_fuel domains env url maxRetries retryDelay fuel (rc + 1)
        ⟨r.ok, retryDelay * (rc + 1) :: r.waits, r.recorded⟩
      else ⟨false, [], []⟩
    if amazonFastPath url then
      if env.gotoOk rc then
        if netloc url ∈ domains then ⟨true, [], [(netloc url, url)]⟩
        else retryOr
      else retryOr
    else
      if env.gotoOk rc then
        if is_captcha_present (env.captchaProbes rc) then
          if handle_amazon_captcha (env.captchaFound rc) (env.resolutionAppears rc) then
            ⟨true, [], []⟩
          else ⟨false, [], []⟩
        else ⟨true, [], []⟩
      else retryOr

/-- `crawl_with_retry` entered at `retry_count = 0`; `max_retries + 1` calls
always suffice. -/
def crawl_with_retry (domains : List String) (env : FetchEnv) (url : String)
    (maxRetries retryDelay : Nat) : FetchResult :=
  crawl_with_retry_fuel domains env url maxRetries retryDelay (maxRetries + 1) 0

/-- The backoff waits produced by attempts `rc, rc+1, ...`: `n` waits of
`retryDelay * (attempt + 1)` seconds each. -/
def backoffWaits (d : Nat) : Nat → Nat → List Nat
  | _, 0 => []
  | rc, n + 1 => d * (rc + 1) :: backoffWaits d (rc + 1) n

/-! ## ResultStore persistence: `EcommerceCrawler.save_results` (advance.py
675-692) and `ParallelCrawler.save_results` (version2.py 283-286) -/

/-- The JSON values the two `save_results` write via `json.dump`. -/
inductive Json where
  | str : String → Json
  | num : Int → Json
  | arr : List Json → Json
  | obj : List (String × Json) → Json

/-- Is a JSON value a string? -/
def Json.isString : Json → Bool
  | Json.str _ => true
  | _ => false

/-- Does a per-domain value hold exactly `urls` (a list of strings), `count`
(an integer equal to the list length) and `timestamp` (a string)? -/
def valueWellFormed : Json → Bool
  | Json.obj [(k1, Json.arr us), (k2, Json.num n), (k3, Json.str _)] =>
    k1 == "urls" && k2 == "count" && k3 == "timestamp" &&
      us.all Json.isString && n == Int.ofNat us.length
  | _ => false

/-- Is the persisted output an object keyed by domain whose every value is
well-formed in the sense above? -/
def outputWellFormed : Json → Bool
  | Json.obj entries => entries.all (fun e => valueWellFormed e.2)
  | _ => false

/-- `EcommerceCrawler.save_results` (advance.py 675-692): per domain, an object
with `urls`, `count = len(urls)` and the `datetime.now().isoformat()` string. -/
def save_results_adv (productUrls : List (String × List String)) (now : String) : Json :=
  Json.obj (productUrls.map (fun du =>
    (du.1, Json.obj [("urls", Json.arr (du.2.map Json.str)),
                     ("count", Json.num (Int.ofNat du.2.length)),
                     ("timestamp", Json.str now)])))

/-- `ParallelCrawler.save_results` (version2.py 283-286): `self.results` is a
plain domain → URL-list map and is dumped as such. -/
def save_results_v2 (results : List (String × List String)) : Json :=
  Json.obj (results.map (fun du => (du.1, Json.arr (du.2.map Json.str))))

/-- `ParallelCrawler.crawl_all_domains` (version2.py 252-281): on normal
completion the gathered per-domain lists are stored and saved; on
`asyncio.TimeoutError` the store step never ran, so `save_results` writes the
still-empty `self.results`.  Either way a JSON document is written. -/
def crawl_all_domains_v2 (outcome : Option (List (String × List String))) : Json :=
  match outcome with
  | some results => save_results_v2 results
  | none => save_results_v2 []

/-! ## Shared lemmas -/

theorem foldl_invariant {α β : Type} (P : α → Prop) (f : α → β → α)
    (h : ∀ a b, P a → P (f a b)) :
    ∀ (l : List β) (a : α), P a → P (l.foldl f a) := by
  intro l
  induction l with
  | nil => intro a ha; exact ha
  | cons b t ih => intro a ha; exact ih (f a b) (h a b ha)

theorem insertStr_length_le (u : String) (l : List String) :
    (insertStr u l).length ≤ l.length + 1 := by
  unfold insertStr
  split
  · exact Nat.le_succ _
  · exact le_rfl

theorem mem_insertStr {v u : String} {l : List String} (h : v ∈ insertStr u l) :
    v = u ∨ v ∈ l := by
  unfold insertStr at h
  split at h
  · exact Or.inr h
  · rcases List.mem_cons.mp h with h | h
    · exact Or.inl h
    · exact Or.inr h

theorem self_mem_insertStr (u : String) (l : List String) : u ∈ insertStr u l := by
  unfold insertStr
  split
  · assumption
  · exact List.mem_cons_self u l

theorem mem_insertStr_of_mem (u : String) {v : String} {l : List String} (h : v ∈ l) :
    v ∈ insertStr u l := by
  unfold insertStr
  split
  · exact h
  · exact List.mem_cons_of_mem _ h

/-! ## C1: the classifier returns an averaged confidence in [1/2, 1] -/

theorem scoreTable_bound (tag : String) (matchP : String → Bool) :
    ∀ (table : List (String × ℚ)) (acc : ℚ × Nat × List String),
      (∀ pw ∈ table, 0 ≤ pw.2 ∧ pw.2 ≤ 1) → 0 ≤ acc.1 → acc.1 ≤ (acc.2.1 : ℚ) →
      0 ≤ (scoreTable tag matchP table acc).1 ∧
        (scoreTable tag matchP table acc).1 ≤ ((scoreTable tag matchP table acc).2.1 : ℚ) := by
  intro table
  induction table with
  | nil => intro acc _ h0 h1; exact ⟨h0, h1⟩
  | cons pw rest ih =>
    intro acc hw h0 h1
    simp only [scoreTable]
    split
    · refine ih _ (fun q hq => hw q (List.mem_cons_of_mem _ hq)) ?_ ?_
      · exact add_nonneg h0 (hw pw (List.mem_cons_self _ _)).1
      · push_cast
        exact add_le_add h1 (hw pw (List.mem_cons_self _ _)).2
    · exact ih acc (fun q hq => hw q (List.mem_cons_of_mem _ hq)) h0 h1

theorem url_patterns_bound : ∀ pw ∈ url_patterns, 0 ≤ pw.2 ∧ pw.2 ≤ 1 := by
  intro pw hw
  fin_cases hw <;> norm_num

theorem content_patterns_bound : ∀ pw ∈ content_patterns, 0 ≤ pw.2 ∧ pw.2 ≤ 1 := by
  intro pw hw
  fin_cases hw <;> norm_num

theorem amazon_content_patterns_bound :
    ∀ pw ∈ amazon_content_patterns, 0 ≤ pw.2 ∧ pw.2 ≤ 1 := by
  intro pw hw
  fin_cases hw <;> norm_num

theorem amazon_product_patterns_bound :
    ∀ pw ∈ amazon_product_patterns, 0 ≤ pw.2 ∧ pw.2 ≤ 1 := by
  intro pw hw
  fin_cases hw <;> norm_num

theorem classifyScore_bound (url : String) (um cm : String → Bool) :
    0 ≤ (classifyScore url um cm).1 ∧
      (classifyScore url um cm).1 ≤ ((classifyScore url um cm).2.1 : ℚ) := by
  unfold classifyScore
  split
  · have h1 := scoreTable_bound "Amazon URL pattern: " um amazon_product_patterns (0, 0, [])
      amazon_product_patterns_bound le_rfl (by norm_num)
    exact scoreTable_bound _ cm amazon_content_patterns _ amazon_content_patterns_bound h1.1 h1.2
  · have h1 := scoreTable_bound "URL pattern: " um url_patterns (0, 0, [])
      url_patterns_bound le_rfl (by norm_num)
    exact scoreTable_bound _ cm content_patterns _ content_patterns_bound h1.1 h1.2

/-- C1: for every page evaluation, `is_product_page` returns a verdict only
when at least one pattern matched, and then the verdict's confidence equals the
sum of the matched pattern weights divided by the number of matches (an
average), lies in [0, 1] and is at least 1/2; when zero patterns match it
returns `none`. -/
theorem C1_classifier_verdict (url : String) (um cm : String → Bool) :
    ((classifyScore url um cm).2.1 = 0 → is_product_page url um cm = none) ∧
    (∀ m : ProductUrlMatch, is_product_page url um cm = some m →
      0 < (classifyScore url um cm).2.1 ∧
      m.confidence = (classifyScore url um cm).1 / ((classifyScore url um cm).2.1 : ℚ) ∧
      0 ≤ m.confidence ∧ m.confidence ≤ 1 ∧ 1/2 ≤ m.confidence) := by
  constructor
  · intro h
    simp [is_product_page, h]
  · intro m hm
    have hb := classifyScore_bound url um cm
    simp only [is_product_page] at hm
    split at hm
    · split at hm
      · rename_i hpos hconf
        cases hm
        refine ⟨hpos, rfl, ?_, ?_, hconf⟩
        · exact div_nonneg hb.1 (Nat.cast_nonneg _)
        · have hposq : (0 : ℚ) < ((classifyScore url um cm).2.1 : ℚ) := by
            exact_mod_cast hpos
          exact (div_le_one hposq).mpr hb.2
      · cases hm
    · cases hm

/-- Witness for C1: the spec scenario URL `https://shop.example/dp/B000123`
against the generic table with only the `/dp/` pattern matching yields a
verdict of confidence 0.95, which the theorem bounds in [1/2, 1]. -/
theorem C1_classifier_verdict_witness :
    is_product_page "https://shop.example/dp/B000123" (fun p => p == "/dp/") (fun _ => false) =
      some ⟨"https://shop.example/dp/B000123", 19/20, ["URL pattern: /dp/"]⟩ ∧
    (0 : ℚ) ≤ 19/20 ∧ (19/20 : ℚ) ≤ 1 ∧ (1/2 : ℚ) ≤ 19/20 := by
  have heq : is_product_page "https://shop.example/dp/B000123" (fun p => p == "/dp/")
      (fun _ => false) =
      some ⟨"https://shop.example/dp/B000123", 19/20, ["URL pattern: /dp/"]⟩ := by
    have hA : strHas (lowerStr "https://shop.example/dp/B000123") "amazon" = false := by decide
    unfold is_product_page classifyScore
    rw [hA]
    simp [scoreTable, url_patterns, content_patterns]
    norm_num
  have h := (C1_classifier_verdict "https://shop.example/dp/B000123" (fun p => p == "/dp/")
    (fun _ => false)).2 _ heq
  exact ⟨heq, h.2.2⟩

/-! ## version2 crawl-loop invariants -/

theorem processLinks_visited (dom : String) (maxUrls : Nat) :
    ∀ (links : List String) (s : CrawlerState),
      (processLinks dom maxUrls links s).1.visited = s.visited := by
  intro links
  induction links with
  | nil => intro s; rfl
  | cons a t ih =>
    intro s
    simp only [processLinks]
    split
    · rfl
    · split
      · split
        · exact ih _
        · split
          · exact ih s
          · exact ih s
      · exact ih s

theorem processLinks_products_le (dom : String) (maxUrls : Nat) :
    ∀ (links : List String) (s : CrawlerState), s.products.length ≤ maxUrls →
      (processLinks dom maxUrls links s).1.products.length ≤ maxUrls := by
  intro links
  induction links with
  | nil => intro s h; exact h
  | cons a t ih =>
    intro s h
    simp only [processLinks]
    split
    · exact h
    · rename_i hlt
      split
      · split
        · refine ih _ ?_
          have h1 := insertStr_length_le (urljoin dom a) s.products
          have h2 : s.products.length < maxUrls := Nat.lt_of_not_le hlt
          exact le_trans h1 h2
        · split
          · exact ih s h
          · exact ih s h
      · exact ih s h

theorem processLinks_products_mem (dom : String) (maxUrls : Nat) :
    ∀ (links : List String) (s : CrawlerState) (p : String),
      p ∈ (processLinks dom maxUrls links s).1.products →
      p ∈ s.products ∨ is_product_url p = true := by
  intro links
  induction links with
  | nil => intro s p h; exact Or.inl h
  | cons a t ih =>
    intro s p h
    simp only [processLinks] at h
    split at h
    · exact Or.inl h
    · split at h
      · split at h
        · rename_i hprod
          rcases ih _ p h with h1 | h1
          · rcases mem_insertStr h1 with rfl | h2
            · exact Or.inr hprod
            · exact Or.inl h2
          · exact Or.inr h1
        · split at h
          · exact ih s p h
          · exact ih s p h
      · exact ih s p h

theorem crawl_url_products_le (fetch : String → Option (List String)) (dom : String)
    (maxUrls maxDepth : Nat) :
    ∀ (fuel : Nat) (s : CrawlerState) (url : String), s.products.length ≤ maxUrls →
      (crawl_url fetch dom maxUrls maxDepth fuel s url).products.length ≤ maxUrls := by
  intro fuel
  induction fuel with
  | zero => intro s url h; exact h
  | succ n ih =>
    intro s url h
    simp only [crawl_url]
    split
    · exact h
    split
    · exact h
    split
    · exact h
    split
    · exact h
    · refine foldl_invariant (fun st => st.products.length ≤ maxUrls)
        (fun st u => crawl_url fetch dom maxUrls maxDepth n st u)
        (fun st u hst => ih st u hst) _ _ ?_
      exact processLinks_products_le dom maxUrls _ _ h

theorem crawl_url_excluded_not_visited (fetch : String → Option (List String))
    (dom : String) (maxUrls maxDepth : Nat) (u : String)
    (hu : should_exclude_url (netloc dom) u = true) :
    ∀ (fuel : Nat) (s : CrawlerState) (url : String), u ∉ s.visited →
      u ∉ (crawl_url fetch dom maxUrls maxDepth fuel s url).visited := by
  intro fuel
  induction fuel with
  | zero => intro s url h; exact h
  | succ n ih =>
    intro s url h
    simp only [crawl_url]
    split
    · exact h
    split
    · exact h
    split
    · exact h
    rename_i hguard _ _
    have hne : url ≠ u := by
      intro he
      exact hguard (Or.inr (he ▸ hu))
    have h1 : u ∉ insertStr url s.visited := by
      intro hin
      rcases mem_insertStr hin with he | hin2
      · exact hne he.symm
      · exact h hin2
    split
    · exact h1
    · refine foldl_invariant (fun st => u ∉ st.visited)
        (fun st v => crawl_url fetch dom maxUrls maxDepth n st v)
        (fun st v hst => ih st v hst) _ _ ?_
      show u ∉ (processLinks _ _ _ _).1.visited
      rw [processLinks_visited]
      exact h1

theorem crawl_url_visited_depth (fetch : String → Option (List String)) (dom : String)
    (maxUrls maxDepth : Nat) (u : String) :
    ∀ (fuel : Nat) (s : CrawlerState) (url : String),
      u ∈ (crawl_url fetch dom maxUrls maxDepth fuel s url).visited →
      u ∈ s.visited ∨ get_url_depth u ≤ maxDepth := by
  intro fuel
  induction fuel with
  | zero => intro s url h; exact Or.inl h
  | succ n ih =>
    intro s url h
    simp only [crawl_url] at h
    split at h
    · exact Or.inl h
    split at h
    · exact Or.inl h
    split at h
    · exact Or.inl h
    rename_i hdep
    have hd : get_url_depth url ≤ maxDepth := Nat.le_of_not_lt hdep
    have hstep : u ∈ insertStr url s.visited →
        u ∈ s.visited ∨ get_url_depth u ≤ maxDepth := by
      intro hv
      rcases mem_insertStr hv with rfl | hv2
      · exact Or.inr hd
      · exact Or.inl hv2
    split at h
    · exact hstep h
    · refine foldl_invariant
        (fun st => u ∈ st.visited → u ∈ s.visited ∨ get_url_depth u ≤ maxDepth)
        (fun st v => crawl_url fetch dom maxUrls maxDepth n st v) ?_ _ _ ?_ h
      · intro st v hst hu2
        rcases ih st v hu2 with h2 | h2
        · exact hst h2
        · exact Or.inr h2
      · show u ∈ (processLinks _ _ _ _).1.visited → _
        rw [processLinks_visited]
        exact hstep

theorem crawl_url_products_shape (fetch : String → Option (List String)) (dom : String)
    (maxUrls maxDepth : Nat) (p : String) :
    ∀ (fuel : Nat) (s : CrawlerState) (url : String),
      p ∈ (crawl_url fetch dom maxUrls maxDepth fuel s url).products →
      p ∈ s.products ∨ is_product_url p = true := by
  intro fuel
  induction fuel with
  | zero => intro s url h; exact Or.inl h
  | succ n ih =>
    intro s url h
    simp only [crawl_url] at h
    split at h
    · exact Or.inl h
    split at h
    · exact Or.inl h
    split at h
    · exact Or.inl h
    split at h
    · exact Or.inl h
    · refine foldl_invariant
        (fun st => p ∈ st.products → p ∈ s.products ∨ is_product_url p = true)
        (fun st v => crawl_url fetch dom maxUrls maxDepth n st v) ?_ _ _ ?_ h
      · intro st v hst hp
        rcases ih st v hp with h2 | h2
        · exact hst h2
        · exact Or.inr h2
      · intro hp
        exact processLinks_products_mem dom maxUrls _
          ⟨insertStr url s.visited, s.products⟩ p hp

/-! ## Advanced-crawler loop invariants -/

theorem crawl_domain_loop_avoid (env : AdvEnv) (domain u : String)
    (hu : should_crawl_url u domain = false) :
    ∀ (fuel : Nat) (st : AdvState), u ∉ st.toVisit → u ∉ st.visited →
      u ∉ (crawl_domain_loop env domain fuel st).visited := by
  intro fuel
  induction fuel with
  | zero => intro st _ h2; exact h2
  | succ n ih =>
    intro st h1 h2
    simp only [crawl_domain_loop]
    split
    · exact h2
    rename_i url rest heq
    have h1' : u ∉ (url :: rest) := heq ▸ h1
    have hne : url ≠ u := fun he => h1' (he ▸ List.mem_cons_self _ _)
    have hrest : u ∉ rest := fun hr => h1' (List.mem_cons_of_mem _ hr)
    split
    · exact h2
    split
    · exact ih _ hrest h2
    have hvis : u ∉ insertStr url st.visited := by
      intro hin
      rcases mem_insertStr hin with he | hin2
      · exact hne he.symm
      · exact h2 hin2
    split
    · split
      · exact ih _ hrest hvis
      · refine ih _ ?_ hvis
        intro hin
        rcases List.mem_append.mp hin with hin | hin
        · exact hrest hin
        · have hp := (List.mem_filter.mp hin).2
          rw [Bool.and_eq_true, Bool.and_eq_true] at hp
          exact absurd hp.2 (by simp [hu])
    · exact ih _ hrest hvis

theorem crawl_domain_loop_products_nav (env : AdvEnv) (domain : String) :
    ∀ (fuel : Nat) (st : AdvState), (∀ p ∈ st.products, p ∈ st.navigated) →
      ∀ p ∈ (crawl_domain_loop env domain fuel st).products,
        p ∈ (crawl_domain_loop env domain fuel st).navigated := by
  intro fuel
  induction fuel with
  | zero => intro st h; exact h
  | succ n ih =>
    intro st h
    simp only [crawl_domain_loop]
    split
    · exact h
    rename_i url rest heq
    split
    · exact h
    split
    · exact ih _ h
    split
    · split
      · refine ih _ ?_
        intro p hp
        rcases mem_insertStr hp with rfl | hp2
        · exact self_mem_insertStr p st.navigated
        · exact mem_insertStr_of_mem _ (h p hp2)
      · refine ih _ ?_
        intro p hp
        exact mem_insertStr_of_mem _ (h p hp)
    · refine ih _ ?_
      intro p hp
      exact mem_insertStr_of_mem _ (h p hp)

/-! ## C2: the visited set is not bounded by `max_urls`; the product set is -/

/-- The environment of the C2 counterexample run: the domain root links to two
ordinary same-domain pages, which link to nothing. -/
def envC2fetch : String → Option (List String) := fun u =>
  if u == "https://a.com" then some ["https://a.com/x1", "https://a.com/x2"] else some []

/-- Counterexample to C2: with `max_urls_per_domain = 1` (and `max_depth = 10`)
the version2 crawler visits 3 URLs from `https://a.com`, exceeding the limit:
the guard in `crawl_url` compares `len(self.product_urls)`, not
`len(self.visited_urls)`, against `max_urls`. -/
theorem C2_visited_exceeds_limit :
    (domain_crawler_start envC2fetch "https://a.com" 1 10 5).visited.length = 3 ∧
      ¬ (domain_crawler_start envC2fetch "https://a.com" 1 10 5).visited.length ≤ 1 := by
  exact ⟨by decide, by decide⟩

/-- C2 (amended): at every observation point of the version2 crawler, the
number of recorded product URLs for a domain never exceeds `max_urls`
(`max_urls_per_domain`); the visited set is not bounded by that limit. -/
theorem C2_product_count_bounded (fetch : String → Option (List String)) (dom : String)
    (maxUrls maxDepth fuel : Nat) (s : CrawlerState) (url : String)
    (h : s.products.length ≤ maxUrls) :
    (crawl_url fetch dom maxUrls maxDepth fuel s url).products.length ≤ maxUrls :=
  crawl_url_products_le fetch dom maxUrls maxDepth fuel s url h

/-- Witness for C2: the counterexample run records at most one product URL. -/
theorem C2_product_count_bounded_witness :
    (domain_crawler_start envC2fetch "https://a.com" 1 10 5).products.length ≤ 1 :=
  C2_product_count_bounded envC2fetch "https://a.com" 1 10 5 ⟨[], []⟩ "https://a.com"
    (by decide)

/-! ## C6: exclusion versus the visited set -/

/-- The environment of the C6 counterexample: the homepage links directly to an
excluded `/about-us` page. -/
def envC6 : AdvEnv :=
  { fetchOk := fun _ => true,
    rawLinks := fun u =>
      if u == "https://www.shop.com" then ["https://www.shop.com/about-us"] else [],
    classify := fun _ => none }

/-- Counterexample to C6: in `EcommerceCrawler.crawl_domain` the homepage links
are seeded into `urls_to_visit` without any `should_crawl_url` filtering, so the
excluded URL `https://www.shop.com/about-us` (rejected by the `/about-us`
entry of `excluded_paths`) is popped and entered into the visited set. -/
theorem C6_homepage_link_bypasses_exclusion :
    should_crawl_url "https://www.shop.com/about-us" "shop.com" = false ∧
      "https://www.shop.com/about-us" ∈ (crawl_domain_adv envC6 "shop.com" 5).visited := by
  exact ⟨by decide, by decide⟩

/-- C6 (amended): in the version2 crawler an excluded URL never enters the
visited set; in the advanced crawler the same holds only for URLs that are not
the homepage and not among the homepage-extracted links, because exclusion is
applied when links of later pages are admitted but not when the frontier is
seeded from the homepage. -/
theorem C6_excluded_never_visited :
    (∀ (fetch : String → Option (List String)) (dom : String) (maxUrls maxDepth fuel : Nat)
      (s : CrawlerState) (url u : String),
      should_exclude_url (netloc dom) u = true → u ∉ s.visited →
      u ∉ (crawl_url fetch dom maxUrls maxDepth fuel s url).visited) ∧
    (∀ (env : AdvEnv) (domain : String) (fuel : Nat) (u : String),
      should_crawl_url u domain = false →
      u ∉ extract_urls_from_page (env.rawLinks ("https://www." ++ domain)) →
      u ≠ "https://www." ++ domain →
      u ∉ (crawl_domain_adv env domain fuel).visited) := by
  constructor
  · intro fetch dom maxUrls maxDepth fuel s url u hu hs
    exact crawl_url_excluded_not_visited fetch dom maxUrls maxDepth u hu fuel s url hs
  · intro env domain fuel u hu hhome hne
    simp only [crawl_domain_adv]
    by_cases hf : env.fetchOk ("https://www." ++ domain) = true
    · rw [if_pos hf]
      refine crawl_domain_loop_avoid env domain u hu fuel _ hhome ?_
      intro hin
      rcases List.mem_cons.mp hin with he | he
      · exact hne he
      · exact absurd he (List.not_mem_nil u)
    · rw [if_neg hf]
      exact List.not_mem_nil u

/-- Witness for C6: in the C2 counterexample run, the excluded URL
`https://a.com/cart` is never visited. -/
theorem C6_excluded_never_visited_witness :
    "https://a.com/cart" ∉ (domain_crawler_start envC2fetch "https://a.com" 1 10 5).visited :=
  C6_excluded_never_visited.1 envC2fetch "https://a.com" 1 10 5 ⟨[], []⟩ "https://a.com"
    "https://a.com/cart" (by decide) (by decide)

/-! ## C7: recorded products come from fetched pages or fast-path URL shapes -/

/-- The environment of the C7 witness run: the root links to one product-shaped
URL and one ordinary page. -/
def envC7fetch : String → Option (List String) := fun u =>
  if u == "https://a.com" then some ["https://a.com/p/q", "https://a.com/x"] else some []

/-- C7: every product URL of the version2 crawler either was already recorded
or matches the product URL shape (`is_product_url`) — such URLs are recorded
directly from the link list of a fetched page, without being navigated
themselves (the fast path); and every product URL of the advanced crawler is
among the URLs actually passed to `crawl_with_retry` (navigated). -/
theorem C7_products_fetched_or_fastpath :
    (∀ (fetch : String → Option (List String)) (dom : String) (maxUrls maxDepth fuel : Nat)
      (s : CrawlerState) (url p : String),
      p ∈ (crawl_url fetch dom maxUrls maxDepth fuel s url).products →
      p ∈ s.products ∨ is_product_url p = true) ∧
    (∀ (env : AdvEnv) (domain : String) (fuel : Nat) (p : String),
      p ∈ (crawl_domain_adv env domain fuel).products →
      p ∈ (crawl_domain_adv env domain fuel).navigated) := by
  constructor
  · intro fetch dom maxUrls maxDepth fuel s url p hp
    exact crawl_url_products_shape fetch dom maxUrls maxDepth p fuel s url hp
  · intro env domain fuel p
    simp only [crawl_domain_adv]
    by_cases hf : env.fetchOk ("https://www." ++ domain) = true
    · rw [if_pos hf]
      intro hp
      refine crawl_domain_loop_products_nav env domain fuel _ ?_ p hp
      intro q hq
      exact absurd hq (List.not_mem_nil q)
    · rw [if_neg hf]
      intro hp
      exact absurd hp (List.not_mem_nil p)

/-- Witness for C7: in the witness run the recorded product
`https://a.com/p/q` indeed matches the fast-path product URL shape. -/
theorem C7_products_fetched_or_fastpath_witness :
    is_product_url "https://a.com/p/q" = true :=
  Or.resolve_left
    (C7_products_fetched_or_fastpath.1 envC7fetch "https://a.com" 10 10 5 ⟨[], []⟩
      "https://a.com" "https://a.com/p/q" (by decide))
    (by decide)

/-! ## C8: the depth bound is on path segments, not on edge count -/

/-- The environment of the C8 counterexample: a chain of three links from the
root, each target having a one-segment path. -/
def envC8fetch : String → Option (List String) := fun u =>
  if u == "https://a.com" then some ["https://a.com/x"]
  else if u == "https://a.com/x" then some ["https://a.com/y"]
  else if u == "https://a.com/y" then some ["https://a.com/z"]
  else some []

/-- Counterexample to C8: with `max_depth = 1` the version2 crawler visits
`https://a.com/z`, whose edge count from the entry point is 3 (it is not
reachable within 1 link step), because `get_url_depth` counts path segments
rather than discovery depth. -/
theorem C8_edge_depth_exceeded :
    "https://a.com/z" ∈ (domain_crawler_start envC8fetch "https://a.com" 100 1 10).visited ∧
      "https://a.com/z" ∉
        reachWithin (fun u => (envC8fetch u).getD []) "https://a.com" 1 := by
  exact ⟨by decide, by decide⟩

/-- C8 (amended): every URL the version2 crawler adds to the visited set has
`get_url_depth` (the number of nonempty path segments, the code's depth
measure) at most `max_depth`; the edge count from the entry point is not
bounded. -/
theorem C8_visited_depth_bounded (fetch : String → Option (List String)) (dom : String)
    (maxUrls maxDepth fuel : Nat) (s : CrawlerState) (url u : String)
    (h : u ∈ (crawl_url fetch dom maxUrls maxDepth fuel s url).visited) :
    u ∈ s.visited ∨ get_url_depth u ≤ maxDepth :=
  crawl_url_visited_depth fetch dom maxUrls maxDepth u fuel s url h

/-- Witness for C8: the visited URL `https://a.com/z` of the counterexample run
has path-segment depth at most 1. -/
theorem C8_visited_depth_bounded_witness :
    get_url_depth "https://a.com/z" ≤ 1 :=
  Or.resolve_left
    (C8_visited_depth_bounded envC8fetch "https://a.com" 100 1 10 ⟨[], []⟩ "https://a.com"
      "https://a.com/z" (by decide))
    (by decide)

/-! ## C3: the infinite-scroll stall counter -/

/-- The links visible before any scroll in the C3 scenario. -/
def baseLinks3 : List String := ["s1", "s2", "s3"]

/-- The 12 links gained by the first scroll in the C3 scenario. -/
def gained12 : List String :=
  ["n1", "n2", "n3", "n4", "n5", "n6", "n7", "n8", "n9", "n10", "n11", "n12"]

/-- The C3 scenario page: height 5× a 1000-pixel viewport and strictly growing
on every scroll, 12 new links after the first scroll and none later, no
load-more button. -/
def envC3 : ScrollEnv :=
  { height := fun k => 5000 + 100 * k,
    links := fun k => if k == 0 then baseLinks3 else baseLinks3 ++ gained12,
    loadMoreFound := false,
    clickHeight := fun k => 5000 + 100 * k }

/-- Counterexample to C3: on the scenario page (first scroll gains 12 links,
every later scroll gains none), with the default budget `max_scroll_attempts
= 10` and `scroll_timeout = 30`, the loop performs 6 scrolls — one gainful and
then five consecutive zero-gain scrolls — not the 3 scrolls (stop after the
second zero-gain scroll) the claim predicts: each zero-gain scroll advances the
shared attempt counter by 2, so stopping takes five stalls, not two. -/
theorem C3_stops_after_fifth_stall :
    (run_infinite_scroll envC3 10 30 5 20).2 = 6 ∧
      (run_infinite_scroll envC3 10 30 5 20).2 ≠ 3 ∧
      (run_infinite_scroll envC3 10 30 5 20).1 = baseLinks3 ++ gained12 := by
  exact ⟨by decide, by decide, by decide⟩

/-- C3 (amended): in the infinite-scroll loop, when the height changed, the
attempt budget is not exhausted and the scroll timeout has not elapsed, a
scroll that yields new links resets the consecutive-stall counter to zero,
while a zero-gain scroll advances it by 2 (one shared counter serves as both
attempt budget and stall counter); hence on the scenario page the loop stops
only after the fifth consecutive zero-gain scroll, not the second. -/
theorem C3_stall_counter_updates (env : ScrollEnv) (maxA sT dW fuel k prevH attempts
    elapsed : Nat) (urls : List String) (hA : attempts < maxA)
    (hH : (env.height k == prevH) = false) (hT : ¬ sT < elapsed + 1) :
    (0 < newLinksCount urls (env.links (k + 1)) →
      handle_infinite_scroll env maxA sT dW (fuel + 1) k prevH attempts elapsed urls =
        handle_infinite_scroll env maxA sT dW fuel (k + 1) (env.height k) 0 (elapsed + 1)
          (unionLinks urls (env.links (k + 1)))) ∧
    (newLinksCount urls (env.links (k + 1)) = 0 →
      handle_infinite_scroll env maxA sT dW (fuel + 1) k prevH attempts elapsed urls =
        handle_infinite_scroll env maxA sT dW fuel (k + 1) (env.height k) (attempts + 2)
          (elapsed + 1) (unionLinks urls (env.links (k + 1)))) := by
  constructor
  · intro hcnt
    have hc : (newLinksCount urls (env.links (k + 1)) == 0) = false := by
      simp [Nat.pos_iff_ne_zero.mp hcnt]
    simp [handle_infinite_scroll, hH, hc, Nat.not_le.mpr hA, hT]
  · intro hcnt
    simp [handle_infinite_scroll, hH, hcnt, Nat.not_le.mpr hA, hT]

/-- Witness for C3: the first (gainful) scroll of the scenario run resets the
counter to zero. -/
theorem C3_stall_counter_updates_witness :
    handle_infinite_scroll envC3 10 30 5 3 0 0 0 0 [] =
      handle_infinite_scroll envC3 10 30 5 2 1 (envC3.height 0) 0 1
        (unionLinks [] (envC3.links 1)) :=
  (C3_stall_counter_updates envC3 10 30 5 2 0 0 0 0 [] (by decide) (by decide)
    (by decide)).1 (by decide)

/-! ## C4: linear-backoff retry; C10: fast-path KeyError; C5: CAPTCHA ceiling -/

theorem backoffWaits_eq_map (d : Nat) :
    ∀ (n rc : Nat), backoffWaits d rc n = (List.range n).map (fun i => d * (rc + i + 1)) := by
  intro n
  induction n with
  | zero => intro rc; rfl
  | succ m ih =>
    intro rc
    rw [List.range_succ_eq_map]
    simp only [backoffWaits, List.map_cons, List.map_map]
    refine congrArg₂ List.cons (by simp) ?_
    rw [ih (rc + 1)]
    refine List.map_congr_left ?_
    intro i _
    simp only [Function.comp]
    congr 1
    omega

theorem cwr_success_aux (domains : List String) (env : FetchEnv) (url : String)
    (mr d k : Nat) (hfp : amazonFastPath url = false)
    (hcap : ∀ n, env.captchaProbes n = [])
    (hok : ∀ n, env.gotoOk n = decide (k ≤ n)) :
    ∀ (fuel rc : Nat), rc ≤ k → k ≤ mr → mr + 1 - rc ≤ fuel →
      crawl_with_retry_fuel domains env url mr d fuel rc =
        ⟨true, backoffWaits d rc (k - rc), []⟩ := by
  intro fuel
  induction fuel with
  | zero => intro rc h1 h2 h3; omega
  | succ n ih =>
    intro rc h1 h2 h3
    rcases eq_or_lt_of_le h1 with rfl | hlt
    · simp [crawl_with_retry_fuel, hfp, hok rc, is_captcha_present, hcap rc, backoffWaits]
    · have hok' : env.gotoOk rc = false := by
        rw [hok rc]
        simp [Nat.not_le.mpr hlt]
      have hrm : rc < mr := lt_of_lt_of_le hlt h2
      have hr := ih (rc + 1) hlt h2 (by omega)
      simp only [crawl_with_retry_fuel, hfp, hok']
      simp only [Bool.false_eq_true, if_false, if_pos hrm, hr]
      rw [show k - rc = (k - (rc + 1)) + 1 from by omega]
      simp [backoffWaits]

theorem cwr_allfail_aux (domains : List String) (env : FetchEnv) (url : String)
    (mr d : Nat) (hfp : amazonFastPath url = false) (hok : ∀ n, env.gotoOk n = false) :
    ∀ (fuel rc : Nat), rc ≤ mr → mr + 1 - rc ≤ fuel →
      crawl_with_retry_fuel domains env url mr d fuel rc =
        ⟨false, backoffWaits d rc (mr - rc), []⟩ := by
  intro fuel
  induction fuel with
  | zero => intro rc h1 h2; omega
  | succ n ih =>
    intro rc h1 h2
    rcases eq_or_lt_of_le h1 with rfl | hlt
    · simp [crawl_with_retry_fuel, hfp, hok rc, backoffWaits]
    · have hrm : rc < mr := hlt
      have hr := ih (rc + 1) hlt (by omega)
      simp only [crawl_with_retry_fuel, hfp, hok rc]
      simp only [Bool.false_eq_true, if_false, if_pos hrm, hr]
      rw [show mr - rc = (mr - (rc + 1)) + 1 from by omega]
      simp [backoffWaits]

/-- C4: when navigation keeps failing, `crawl_with_retry` retries while
`retry_count < max_retries`, sleeping `retry_delay * (retry_count + 1)` seconds
before each retry (linear backoff): if the first `k ≤ max_retries` attempts
fail and attempt `k` succeeds, it returns success after exactly the waits
`retry_delay*1, ..., retry_delay*k`; if every attempt fails it returns a
terminal failure after `max_retries` waits.  (In particular, two failures with
`max_retries = 3` and success on the third attempt give exactly the two waits
`retry_delay*1` and `retry_delay*2`.) -/
theorem C4_retry_linear_backoff (domains : List String) (env : FetchEnv) (url : String)
    (mr d : Nat) (hfp : amazonFastPath url = false)
    (hcap : ∀ n, env.captchaProbes n = []) :
    (∀ k, k ≤ mr → (∀ n, env.gotoOk n = decide (k ≤ n)) →
      crawl_with_retry domains env url mr d = ⟨true, backoffWaits d 0 k, []⟩) ∧
    ((∀ n, env.gotoOk n = false) →
      crawl_with_retry domains env url mr d = ⟨false, backoffWaits d 0 mr, []⟩) ∧
    (∀ k, backoffWaits d 0 k = (List.range k).map (fun i => d * (i + 1))) := by
  refine ⟨?_, ?_, ?_⟩
  · intro k hk hok
    have h := cwr_success_aux domains env url mr d k hfp hcap hok (mr + 1) 0
      (Nat.zero_le k) hk (by omega)
    simpa using h
  · intro hok
    have h := cwr_allfail_aux domains env url mr d hfp hok (mr + 1) 0
      (Nat.zero_le mr) (by omega)
    simpa using h
  · intro k
    rw [backoffWaits_eq_map d k 0]
    refine List.map_congr_left ?_
    intro i _
    congr 1
    omega

/-- The environment of the C4 witness: `page.goto` raises on attempts 0 and 1
and succeeds from attempt 2 on; no CAPTCHA. -/
def envC4 : FetchEnv :=
  { gotoOk := fun n => decide (2 ≤ n), captchaProbes := fun _ => [],
    captchaFound := fun _ => [], resolutionAppears := fun _ => false }

/-- Witness for C4: the spec scenario — two failures with `max_retries = 3`,
`retry_delay = 5`, success on the third attempt — returns success after
exactly the waits 5 and 10 seconds. -/
theorem C4_retry_linear_backoff_witness :
    crawl_with_retry [] envC4 "https://x.com/a" 3 5 = ⟨true, [5, 10], []⟩ := by
  have h := (C4_retry_linear_backoff [] envC4 "https://x.com/a" 3 5 (by decide)
    (fun n => rfl)).1 2 (by decide) (fun n => rfl)
  rw [h]
  rfl

theorem cwr_keyerror_aux (domains : List String) (env : FetchEnv) (url : String)
    (mr d : Nat) (hfp : amazonFastPath url = true) (hnet : netloc url ∉ domains)
    (hok : ∀ n, env.gotoOk n = true) :
    ∀ (fuel rc : Nat), rc ≤ mr → mr + 1 - rc ≤ fuel →
      crawl_with_retry_fuel domains env url mr d fuel rc =
        ⟨false, backoffWaits d rc (mr - rc), []⟩ := by
  intro fuel
  induction fuel with
  | zero => intro rc h1 h2; omega
  | succ n ih =>
    intro rc h1 h2
    rcases eq_or_lt_of_le h1 with rfl | hlt
    · simp [crawl_with_retry_fuel, hfp, hok rc, hnet, backoffWaits]
    · have hrm : rc < mr := hlt
      have hr := ih (rc + 1) hlt (by omega)
      simp only [crawl_with_retry_fuel, hfp, hok rc, if_true]
      rw [if_neg hnet]
      simp only [if_pos hrm, hr]
      rw [show mr - rc = (mr - (rc + 1)) + 1 from by omega]
      simp [backoffWaits]

/-- C10: a fast-path product URL (matching the Amazon patterns) whose
`urlparse(url).netloc` is not character-for-character one of the configured
domain keys triggers `KeyError` on the `self.product_urls[...]` insertion after
every (successful) navigation; the surrounding `except` treats it as a
navigation failure, so `crawl_with_retry` performs all `max_retries` linear
backoff waits, returns failure, and the fast-path hit is never recorded. -/
theorem C10_fastpath_keyerror (domains : List String) (env : FetchEnv) (url : String)
    (mr d : Nat) (hfp : amazonFastPath url = true) (hnet : netloc url ∉ domains)
    (hok : ∀ n, env.gotoOk n = true) :
    crawl_with_retry domains env url mr d = ⟨false, backoffWaits d 0 mr, []⟩ := by
  have h := cwr_keyerror_aux domains env url mr d hfp hnet hok (mr + 1) 0
    (Nat.zero_le mr) (by omega)
  simpa using h

/-- The environment of the C10 witness: navigation always succeeds. -/
def envC10 : FetchEnv :=
  { gotoOk := fun _ => true, captchaProbes := fun _ => [],
    captchaFound := fun _ => [], resolutionAppears := fun _ => false }

/-- Witness for C10: with configured domains `["amazon.in"]`, the fast-path URL
`https://www.amazon.in/dp/B0ABCDEFGH` has netloc `www.amazon.in`, which is not
a key; the fetch fails after the three backoff waits 5, 10, 15 and records
nothing. -/
theorem C10_fastpath_keyerror_witness :
    crawl_with_retry ["amazon.in"] envC10 "https://www.amazon.in/dp/B0ABCDEFGH" 3 5 =
      ⟨false, [5, 10, 15], []⟩ := by
  have h := C10_fastpath_keyerror ["amazon.in"] envC10
    "https://www.amazon.in/dp/B0ABCDEFGH" 3 5 (by decide) (by decide) (fun n => rfl)
  rw [h]
  rfl

/-- The environment of the C5 evaluation: navigation succeeds, the first
CAPTCHA probe of `is_captcha_present` and the first selector of
`handle_amazon_captcha` find an element, and the resolution marker never
appears before the ceiling. -/
def envC5 : FetchEnv :=
  { gotoOk := fun _ => true,
    captchaProbes := fun _ => [true, false, false, false, false],
    captchaFound := fun _ => [true, false, false],
    resolutionAppears := fun _ => false }

/-- C5 (code bug): when a CAPTCHA is detected and the resolution marker never
appears before the ceiling, the `TimeoutError` of the resolution wait is
swallowed by the `except TimeoutError: continue` of the selector loop, so
`handle_amazon_captcha` falls through to its final `return True` (commented
`No CAPTCHA found`) and `crawl_with_retry` returns success — the fetch does
not fail terminally as the claim (and the spec) require. -/
theorem C5_captcha_timeout_not_terminal :
    handle_amazon_captcha [true, false, false] false = true ∧
      crawl_with_retry [] envC5 "https://www.shop.com/x" 3 5 = ⟨true, [], []⟩ ∧
      (∀ found : List Bool, handle_amazon_captcha found true = true) := by
  refine ⟨rfl, by decide, ?_⟩
  intro found
  induction found with
  | nil => rfl
  | cons f rest ih => cases f <;> simp [handle_amazon_captcha, ih]

/-! ## C9: the shape of the persisted output -/

theorem valueWellFormed_mk (l : List String) (now : String) :
    valueWellFormed (Json.obj [("urls", Json.arr (l.map Json.str)),
      ("count", Json.num (Int.ofNat l.length)), ("timestamp", Json.str now)]) = true := by
  simp [valueWellFormed, List.all_eq_true, Json.isString]

/-- Counterexample to C9: `ParallelCrawler.save_results` (version2.py), the
writer that runs even on global timeout, maps each domain to a bare URL list —
its value for `amazon.in` is not an object holding `urls`, `count` and
`timestamp`. -/
theorem C9_v2_output_shape_differs :
    outputWellFormed (save_results_v2 [("amazon.in", ["u1"])]) = false ∧
      save_results_v2 [("amazon.in", ["u1"])] =
        Json.obj [("amazon.in", Json.arr [Json.str "u1"])] := by
  exact ⟨by decide, rfl⟩

/-- C9 (amended): the advanced crawler's `save_results` always produces a JSON
object keyed by domain whose every value holds exactly `urls` (a list of
strings), `count` (an integer equal to the number of URLs) and `timestamp` (a
string); the version2 `ParallelCrawler` writes on every completion path —
including global timeout, where its results dict is still empty — but its
values are bare URL lists, not objects of that shape. -/
theorem C9_output_shape :
    (∀ (productUrls : List (String × List String)) (now : String),
      outputWellFormed (save_results_adv productUrls now) = true) ∧
    crawl_all_domains_v2 none = Json.obj [] := by
  constructor
  · intro productUrls now
    simp only [save_results_adv, outputWellFormed, List.all_eq_true]
    intro e he
    rcases List.mem_map.mp he with ⟨du, _, rfl⟩
    exact valueWellFormed_mk du.2 now
  · rfl

end WebCrawler
